import Mathlib

/-!
Verification of the transaction-dashboard aggregation engine.

Shallow embedding of `src/app.py` (bamiwoaluko/transaction-dashboard).
Tabular data is modelled as lists of rows; pandas/numpy floats are
modelled as exact rationals, with a dedicated type `PVal` capturing the
IEEE special values (`inf`, `-inf`, `nan`) that the vectorized
percentage columns can produce.  Python string operations are modelled
structurally over the character list of a `String`.
-/

set_option autoImplicit false

/-! ## Python string primitives -/

/-- Python `str.strip()`: remove leading and trailing whitespace. -/
def pyStrip (s : String) : String :=
  ⟨((s.data.dropWhile Char.isWhitespace).reverse.dropWhile Char.isWhitespace).reverse⟩

/-- Python `str.upper()` (ASCII case mapping suffices for the labels used). -/
def pyUpper (s : String) : String := ⟨s.data.map Char.toUpper⟩

/-- Accumulator pass of Python `str.split()` with no separator: `cur` is the
current (reversed) token, `acc` the (reversed) list of finished tokens. -/
def splitWSAux (cur : List Char) (acc : List String) : List Char → List String
  | [] => if cur = [] then acc else (⟨cur.reverse⟩ : String) :: acc
  | c :: cs =>
    if c.isWhitespace then
      splitWSAux [] (if cur = [] then acc else (⟨cur.reverse⟩ : String) :: acc) cs
    else
      splitWSAux (c :: cur) acc cs

/-- Python `str.split()` with no arguments: split on runs of whitespace;
never yields an empty token. -/
def pySplit (s : String) : List String := (splitWSAux [] [] s.data).reverse

/-- Pieces of a path split at `/`, most significant last; the result is
returned in reverse order and is never empty. -/
def splitSlashAux (cur : List Char) (acc : List String) : List Char → List String
  | [] => (⟨cur.reverse⟩ : String) :: acc
  | c :: cs =>
    if c = '/' then splitSlashAux [] ((⟨cur.reverse⟩ : String) :: acc) cs
    else splitSlashAux (c :: cur) acc cs

/-- `os.path.basename`: the part of the path after the last `/`. -/
def basename (s : String) : String := (splitSlashAux [] [] s.data).headD ""

/-! ## Numeric primitives -/

/-- Round-half-to-even to an integer: the rounding used by Python's
`round(x)` and by pandas `.round(0)` (floats embedded as exact rationals). -/
def roundHE (q : ℚ) : ℤ :=
  if q - (⌊q⌋ : ℚ) < 1/2 then ⌊q⌋
  else if (1 : ℚ)/2 < q - (⌊q⌋ : ℚ) then ⌊q⌋ + 1
  else if ⌊q⌋ % 2 = 0 then ⌊q⌋ else ⌊q⌋ + 1

/-- Python `round(x, 2)` on the rational embedding of a float. -/
def round2 (q : ℚ) : ℚ := ((roundHE (q * 100) : ℤ) : ℚ) / 100

/-- A pandas float cell: a finite rational or one of the IEEE special
values `inf`, `-inf`, `nan` that division by zero produces. -/
inductive PVal where
  | num (q : ℚ)
  | posInf
  | negInf
  | nan
deriving DecidableEq, Repr

/-- IEEE float division of finite values: `a / 0` is `±inf` for `a ≠ 0`
(taking the sign of `a`) and `nan` for `a = 0`; otherwise exact. -/
def pdiv (a b : ℚ) : PVal :=
  if b = 0 then
    if a = 0 then PVal.nan else if 0 < a then PVal.posInf else PVal.negInf
  else PVal.num (a / b)

/-- Multiplication by the positive constant 100 (preserves `±inf` and `nan`). -/
def pmul100 : PVal → PVal
  | PVal.num q => PVal.num (q * 100)
  | PVal.posInf => PVal.posInf
  | PVal.negInf => PVal.negInf
  | PVal.nan => PVal.nan

/-- `.replace([inf, -inf], 0)` (app.py:172-173, 275-276): maps the two
infinities to 0 and leaves every other value, including NaN, unchanged. -/
def replaceInf : PVal → PVal
  | PVal.posInf => PVal.num 0
  | PVal.negInf => PVal.num 0
  | x => x

/-- The vectorized percentage-change computation
`(DIFF / BASE * 100).replace([inf, -inf], 0)` used at the region and
state levels. -/
def pctVec (diff base : ℚ) : PVal := replaceInf (pmul100 (pdiv diff base))

/-- pandas `Series.sum()` with its default `skipna=True`, over a column
that (after infinity replacement) holds only numbers and NaN: NaN
entries are skipped, numbers are added; an all-NaN or empty column sums
to 0. -/
def psum (xs : List PVal) : ℚ :=
  xs.foldl (fun acc x => match x with | PVal.num q => acc + q | _ => acc) 0

/-! ## Data model and loader -/

/-- One row of a loaded sheet.  `first` is the string rendering of the
row's first column (`str(df.iloc[i, 0])`); `REGION`, `BANK`, `STATE` are
nullable categoricals (`none` models a NaN cell); `VOLUME` and `VALUE`
are the two numeric measures. -/
structure RawRow where
  first : String
  REGION : Option String
  BANK : Option String
  STATE : Option String
  VOLUME : ℚ
  VALUE : ℚ
deriving DecidableEq, Repr

/-- `load_data` (app.py:27-32): reads a sheet and drops the final row when
`str(df.iloc[-1, 0]).strip() == "TOTAL"`.  On an empty sheet
`df.iloc[-1, 0]` raises `IndexError`, modelled by `none`. -/
def load_data (rows : List RawRow) : Option (List RawRow) :=
  match rows.getLast? with
  | none => none
  | some r => some (if pyStrip r.first = "TOTAL" then rows.dropLast else rows)

/-- `get_week_label` (app.py:34-40).  A `none` input models a missing
upload; a `none` output models the `IndexError` raised by
`base.split()[0]` when the base filename contains no whitespace-delimited
token. -/
def get_week_label (uploaded : Option String) (fallback : String) : Option String :=
  match uploaded with
  | none => some fallback
  | some name =>
    match pySplit (basename name) with
    | [] => none
    | t :: _ => some (if t ≠ "" then pyUpper t else fallback)

/-! ## Aggregator (`groupby(...)[["VOLUME", "VALUE"]].sum()`) -/

/-- Fold one row's measures into an association list of per-key sums. -/
def addRow {κ : Type} [DecidableEq κ] (acc : List (κ × ℚ × ℚ)) (k : κ) (vol val : ℚ) :
    List (κ × ℚ × ℚ) :=
  match acc with
  | [] => [(k, vol, val)]
  | (k', v, w) :: rest =>
    if k = k' then (k', v + vol, w + val) :: rest
    else (k', v, w) :: addRow rest k vol val

/-- `df.groupby(keys)[["VOLUME", "VALUE"]].sum()`: group by a (total) key
function and sum both measures per group, keys in first-seen order. -/
def groupbySum {κ : Type} [DecidableEq κ] (key : RawRow → κ) (rows : List RawRow) :
    List (κ × ℚ × ℚ) :=
  rows.foldl (fun acc r => addRow acc (key r) r.VOLUME r.VALUE) []

/-- The keys of an aggregate. -/
def aggKeys {κ : Type} (agg : List (κ × ℚ × ℚ)) : List κ := agg.map Prod.fst

/-! ## Period joiner (`pd.merge(..., how="outer").fillna(0)`) -/

/-- One joined comparison row before any derived columns: dimension key
plus both periods' summed measures. -/
structure CompRow (κ : Type) where
  key : κ
  vol1 : ℚ
  val1 : ℚ
  vol2 : ℚ
  val2 : ℚ
deriving DecidableEq, Repr

/-- First match of a key in an aggregate (aggregate keys are unique). -/
def lookupAgg {κ : Type} [DecidableEq κ] (agg : List (κ × ℚ × ℚ)) (k : κ) :
    Option (ℚ × ℚ) :=
  match agg with
  | [] => none
  | (k', v, w) :: rest => if k = k' then some (v, w) else lookupAgg rest k

/-- The joined row for a left-side aggregate entry: the right measures
come from the matching right entry, or 0 (`fillna`) when absent. -/
def joinLeftRow {κ : Type} [DecidableEq κ] (agg2 : List (κ × ℚ × ℚ)) (e : κ × ℚ × ℚ) :
    CompRow κ :=
  match lookupAgg agg2 e.1 with
  | some (v2, w2) => ⟨e.1, e.2.1, e.2.2, v2, w2⟩
  | none => ⟨e.1, e.2.1, e.2.2, 0, 0⟩

/-- Full outer join of two aggregates on their keys followed by
`fillna(0)`: every left key appears with the right measures (or 0), and
every right-only key appears with 0 for the left measures. -/
def outerJoin {κ : Type} [DecidableEq κ] (agg1 agg2 : List (κ × ℚ × ℚ)) :
    List (CompRow κ) :=
  agg1.map (joinLeftRow agg2)
  ++ ((agg2.filter fun e => decide (e.1 ∉ aggKeys agg1)).map fun e =>
    ⟨e.1, 0, 0, e.2.1, e.2.2⟩)

/-! ## Region + Bank comparison (app.py:119-142) -/

/-- A row of the region+bank `merged` table: both periods' measures, the
two diff columns and the two per-row percentage columns. -/
structure RBRow where
  key : String × String
  vol1 : ℚ
  vol2 : ℚ
  volDiff : ℚ
  volPct : ℚ
  val1 : ℚ
  val2 : ℚ
  valDiff : ℚ
  valPct : ℚ
deriving DecidableEq, Repr

/-- `groupby(["REGION", "BANK"])` drops rows whose REGION or BANK is NaN
(pandas' default `dropna=True`). -/
def rbValid (r : RawRow) : Bool := r.REGION.isSome && r.BANK.isSome

/-- The (REGION, BANK) key of a row that survives the NaN-key drop. -/
def rbKey (r : RawRow) : String × String := (r.REGION.getD "", r.BANK.getD "")

/-- `agg1`/`agg2` of app.py:123-124: per-(REGION, BANK) sums, with
NaN-keyed rows dropped by `groupby`. -/
def rbAgg (df : List RawRow) : List ((String × String) × ℚ × ℚ) :=
  groupbySum rbKey (df.filter rbValid)

/-- Diff and per-row percentage columns of app.py:128-136: the percentage
is `round(DIFF / base * 100, 2)` when the (truthy) base is nonzero, else 0. -/
def rbMergedRow (c : CompRow (String × String)) : RBRow :=
  { key := c.key, vol1 := c.vol1, vol2 := c.vol2,
    volDiff := c.vol2 - c.vol1,
    volPct := if c.vol1 ≠ 0 then round2 ((c.vol2 - c.vol1) / c.vol1 * 100) else 0,
    val1 := c.val1, val2 := c.val2,
    valDiff := c.val2 - c.val1,
    valPct := if c.val1 ≠ 0 then round2 ((c.val2 - c.val1) / c.val1 * 100) else 0 }

/-- The `merged` table of app.py:126-136, before the integer cast. -/
def region_bank_merged (df1 df2 : List RawRow) : List RBRow :=
  (outerJoin (rbAgg df1) (rbAgg df2)).map rbMergedRow

/-- The `.round(0).astype(int)` cast of app.py:138-141, applied to the six
measure/diff columns (the percentage columns are untouched). -/
def castCols (r : RBRow) : RBRow :=
  { r with vol1 := (roundHE r.vol1 : ℚ), vol2 := (roundHE r.vol2 : ℚ),
           volDiff := (roundHE r.volDiff : ℚ),
           val1 := (roundHE r.val1 : ℚ), val2 := (roundHE r.val2 : ℚ),
           valDiff := (roundHE r.valDiff : ℚ) }

/-- `region_bank_comparison` (app.py:119-142): the table returned to the
caller, with measures and diffs cast to integers. -/
def region_bank_comparison (df1 df2 : List RawRow) : List RBRow :=
  (region_bank_merged df1 df2).map castCols

/-! ## Region-level comparison (app.py:154-218) -/

/-- A row of a vectorized comparison table (region or state level):
measures, diffs, and the two vectorized percentage columns. -/
structure VRow where
  key : String
  vol1 : ℚ
  val1 : ℚ
  vol2 : ℚ
  val2 : ℚ
  volDiff : ℚ
  valDiff : ℚ
  volPct : PVal
  valPct : PVal
deriving DecidableEq, Repr

/-- Diff columns (`label2 - label1`) and vectorized percentage columns
(`(DIFF / base * 100).replace([inf, -inf], 0)`) over one joined row. -/
def vecRow (c : CompRow String) : VRow :=
  { key := c.key, vol1 := c.vol1, val1 := c.val1, vol2 := c.vol2, val2 := c.val2,
    volDiff := c.vol2 - c.vol1, valDiff := c.val2 - c.val1,
    volPct := pctVec (c.vol2 - c.vol1) c.vol1,
    valPct := pctVec (c.val2 - c.val1) c.val1 }

/-- `df["REGION"].fillna("UNKNOWN")` followed by grouping on REGION. -/
def regionKey (r : RawRow) : String := r.REGION.getD "UNKNOWN"

/-- The `region_comparison` table of app.py:161-173 (grouping, outer join
with zero fill, diffs, and vectorized percentage changes). -/
def region_comparison (df1 df2 : List RawRow) : List VRow :=
  (outerJoin (groupbySum regionKey df1) (groupbySum regionKey df2)).map vecRow

/-- A row of a region/state difference table: key, the two diff columns
and the two percentage-change columns. -/
structure DRow where
  key : String
  volDiff : ℚ
  volPct : PVal
  valDiff : ℚ
  valPct : PVal
deriving DecidableEq, Repr

/-- Projection of a comparison row onto the difference-table columns. -/
def toDRow (r : VRow) : DRow :=
  { key := r.key, volDiff := r.volDiff, volPct := r.volPct,
    valDiff := r.valDiff, valPct := r.valPct }

/-- The region `diff_table` with its appended TOTAL row (app.py:204-212):
diff columns are summed, percentage columns are summed as raw numbers. -/
def diff_table (df1 df2 : List RawRow) : List DRow :=
  let rows := (region_comparison df1 df2).map toDRow
  rows ++ [{ key := "TOTAL",
             volDiff := (rows.map DRow.volDiff).sum,
             volPct := PVal.num (psum (rows.map DRow.volPct)),
             valDiff := (rows.map DRow.valDiff).sum,
             valPct := PVal.num (psum (rows.map DRow.valPct)) }]

/-- The region `volume_table` with its appended TOTAL row (app.py:176-182):
`(REGION, VOLUME_label1, VOLUME_label2)` triples. -/
def volume_table (df1 df2 : List RawRow) : List (String × ℚ × ℚ) :=
  let rows := (region_comparison df1 df2).map fun r => (r.key, r.vol1, r.vol2)
  rows ++ [("TOTAL", (rows.map fun e => e.2.1).sum, (rows.map fun e => e.2.2).sum)]

/-- The region `value_table` with its appended TOTAL row (app.py:190-196). -/
def value_table (df1 df2 : List RawRow) : List (String × ℚ × ℚ) :=
  let rows := (region_comparison df1 df2).map fun r => (r.key, r.val1, r.val2)
  rows ++ [("TOTAL", (rows.map fun e => e.2.1).sum, (rows.map fun e => e.2.2).sum)]

/-! ## State-level comparison (app.py:243-286) -/

/-- `state_mapping` (app.py:243-252): state code → full name. -/
def state_mapping : List (String × String) :=
  [("AB", "Abia"), ("AD", "Adamawa"), ("AK", "Akwa Ibom"), ("AN", "Anambra"),
   ("BA", "Bauchi"), ("BY", "Bayelsa"), ("BE", "Benue"), ("BO", "Borno"),
   ("CR", "Cross River"), ("DE", "Delta"), ("EB", "Ebonyi"), ("ED", "Edo"),
   ("EK", "Ekiti"), ("EN", "Enugu"), ("FC", "FCT - Abuja"), ("GO", "Gombe"),
   ("IM", "Imo"), ("JI", "Jigawa"), ("KD", "Kaduna"), ("KN", "Kano"),
   ("KT", "Katsina"), ("KE", "Kebbi"), ("KO", "Kogi"), ("KW", "Kwara"),
   ("LA", "Lagos"), ("NA", "Nasarawa"), ("NI", "Niger"), ("OG", "Ogun"),
   ("ON", "Ondo"), ("OS", "Osun"), ("OY", "Oyo"), ("PL", "Plateau"),
   ("RI", "Rivers"), ("SO", "Sokoto"), ("TA", "Taraba"), ("YO", "Yobe"),
   ("ZA", "Zamfara")]

/-- `df["STATE"].map(state_mapping).fillna(df["STATE"])` (app.py:261-262):
mapped codes become full names, unmapped codes pass through unchanged. -/
def mapState (s : String) : String := (state_mapping.lookup s).getD s

/-- The STATE grouping key: NaN → "UNKNOWN", then code → name mapping. -/
def stateKey (r : RawRow) : String := mapState (r.STATE.getD "UNKNOWN")

/-- The state comparison rows of app.py:264-276 (before column selection
and the TOTAL row). -/
def state_rows (df1 df2 : List RawRow) : List VRow :=
  (outerJoin (groupbySum stateKey df1) (groupbySum stateKey df2)).map vecRow

/-- `state_comparison` (app.py:278-286): the selected difference columns
with the appended TOTAL row (diffs summed, percentages summed raw). -/
def state_comparison (df1 df2 : List RawRow) : List DRow :=
  let rows := (state_rows df1 df2).map toDRow
  rows ++ [{ key := "TOTAL",
             volDiff := (rows.map DRow.volDiff).sum,
             volPct := PVal.num (psum (rows.map DRow.volPct)),
             valDiff := (rows.map DRow.valDiff).sum,
             valPct := PVal.num (psum (rows.map DRow.valPct)) }]

/-! ## Weekly totals comparison (app.py:47-76) -/

/-- One result row of `compare_totals` for one sheet: whole-table sums
(rounded to int by Python `round`), diffs, and per-row percentages. -/
structure TotalsRow where
  vol1 : ℤ
  vol2 : ℤ
  volDiff : ℤ
  volPct : ℚ
  val1 : ℤ
  val2 : ℤ
  valDiff : ℤ
  valPct : ℚ
deriving DecidableEq, Repr

/-- The per-sheet body of `compare_totals` (app.py:53-74), applied to the
two loaded sheets. -/
def compare_totals_sheet (df1 df2 : List RawRow) : TotalsRow :=
  let w1v := roundHE (df1.map RawRow.VOLUME).sum
  let w1w := roundHE (df1.map RawRow.VALUE).sum
  let w2v := roundHE (df2.map RawRow.VOLUME).sum
  let w2w := roundHE (df2.map RawRow.VALUE).sum
  { vol1 := w1v, vol2 := w2v, volDiff := w2v - w1v,
    volPct := if w1v ≠ 0 then round2 (((w2v - w1v : ℤ) : ℚ) / (w1v : ℚ) * 100) else 0,
    val1 := w1w, val2 := w2w, valDiff := w2w - w1w,
    valPct := if w1w ≠ 0 then round2 (((w2w - w1w : ℤ) : ℚ) / (w1w : ℚ) * 100) else 0 }

/-! ## Helper lemmas -/

theorem pctVec_zero_of_ne (d : ℚ) (hd : d ≠ 0) : pctVec d 0 = PVal.num 0 := by
  by_cases h : 0 < d <;> simp [pctVec, pdiv, pmul100, replaceInf, hd, h]

theorem pctVec_zero_zero : pctVec 0 0 = PVal.nan := by
  simp [pctVec, pdiv, pmul100, replaceInf]

theorem pctVec_of_base_ne (d b : ℚ) (hb : b ≠ 0) : pctVec d b = PVal.num (d / b * 100) := by
  simp [pctVec, pdiv, pmul100, replaceInf, hb]

theorem addRow_sumVol {κ : Type} [DecidableEq κ] (acc : List (κ × ℚ × ℚ)) (k : κ)
    (vol val : ℚ) :
    ((addRow acc k vol val).map fun e => e.2.1).sum = ((acc.map fun e => e.2.1).sum) + vol := by
  induction acc with
  | nil => simp [addRow]
  | cons e rest ih =>
    obtain ⟨k', v, w⟩ := e
    by_cases h : k = k'
    · simp [addRow, h]; ring
    · simp [addRow, h, ih]; ring

theorem addRow_sumVal {κ : Type} [DecidableEq κ] (acc : List (κ × ℚ × ℚ)) (k : κ)
    (vol val : ℚ) :
    ((addRow acc k vol val).map fun e => e.2.2).sum = ((acc.map fun e => e.2.2).sum) + val := by
  induction acc with
  | nil => simp [addRow]
  | cons e rest ih =>
    obtain ⟨k', v, w⟩ := e
    by_cases h : k = k'
    · simp [addRow, h]; ring
    · simp [addRow, h, ih]; ring

theorem groupbySum_foldl_sumVol {κ : Type} [DecidableEq κ] (key : RawRow → κ) :
    ∀ (rows : List RawRow) (acc : List (κ × ℚ × ℚ)),
      ((rows.foldl (fun a r => addRow a (key r) r.VOLUME r.VALUE) acc).map fun e => e.2.1).sum
        = (acc.map fun e => e.2.1).sum + (rows.map RawRow.VOLUME).sum := by
  intro rows
  induction rows with
  | nil => intro acc; simp
  | cons r rest ih =>
    intro acc
    simp only [List.foldl_cons, ih, addRow_sumVol, List.map_cons, List.sum_cons]
    ring

theorem groupbySum_foldl_sumVal {κ : Type} [DecidableEq κ] (key : RawRow → κ) :
    ∀ (rows : List RawRow) (acc : List (κ × ℚ × ℚ)),
      ((rows.foldl (fun a r => addRow a (key r) r.VOLUME r.VALUE) acc).map fun e => e.2.2).sum
        = (acc.map fun e => e.2.2).sum + (rows.map RawRow.VALUE).sum := by
  intro rows
  induction rows with
  | nil => intro acc; simp
  | cons r rest ih =>
    intro acc
    simp only [List.foldl_cons, ih, addRow_sumVal, List.map_cons, List.sum_cons]
    ring

theorem groupbySum_sumVol {κ : Type} [DecidableEq κ] (key : RawRow → κ) (rows : List RawRow) :
    ((groupbySum key rows).map fun e => e.2.1).sum = (rows.map RawRow.VOLUME).sum := by
  simpa [groupbySum] using groupbySum_foldl_sumVol key rows []

theorem groupbySum_sumVal {κ : Type} [DecidableEq κ] (key : RawRow → κ) (rows : List RawRow) :
    ((groupbySum key rows).map fun e => e.2.2).sum = (rows.map RawRow.VALUE).sum := by
  simpa [groupbySum] using groupbySum_foldl_sumVal key rows []

theorem lookupAgg_eq_none_iff {κ : Type} [DecidableEq κ] (agg : List (κ × ℚ × ℚ)) (k : κ) :
    lookupAgg agg k = none ↔ k ∉ aggKeys agg := by
  induction agg with
  | nil => simp [lookupAgg, aggKeys]
  | cons e rest ih =>
    obtain ⟨k', v, w⟩ := e
    by_cases h : k = k'
    · simp [lookupAgg, aggKeys, h]
    · simp [lookupAgg, aggKeys, h, ih]

theorem joinLeftRow_key {κ : Type} [DecidableEq κ] (agg2 : List (κ × ℚ × ℚ))
    (e : κ × ℚ × ℚ) : (joinLeftRow agg2 e).key = e.1 := by
  unfold joinLeftRow
  rcases lookupAgg agg2 e.1 with _ | ⟨v2, w2⟩ <;> rfl

theorem joinLeftRow_vol1 {κ : Type} [DecidableEq κ] (agg2 : List (κ × ℚ × ℚ))
    (e : κ × ℚ × ℚ) : (joinLeftRow agg2 e).vol1 = e.2.1 := by
  unfold joinLeftRow
  rcases lookupAgg agg2 e.1 with _ | ⟨v2, w2⟩ <;> rfl

theorem joinLeftRow_val1 {κ : Type} [DecidableEq κ] (agg2 : List (κ × ℚ × ℚ))
    (e : κ × ℚ × ℚ) : (joinLeftRow agg2 e).val1 = e.2.2 := by
  unfold joinLeftRow
  rcases lookupAgg agg2 e.1 with _ | ⟨v2, w2⟩ <;> rfl

theorem mem_key_outerJoin {κ : Type} [DecidableEq κ] (agg1 agg2 : List (κ × ℚ × ℚ)) (k : κ) :
    k ∈ (outerJoin agg1 agg2).map CompRow.key ↔ k ∈ aggKeys agg1 ∨ k ∈ aggKeys agg2 := by
  simp only [outerJoin, List.map_append, List.mem_append, List.map_map, List.mem_map,
    Function.comp, joinLeftRow_key, List.mem_filter, aggKeys]
  constructor
  · rintro (⟨e, he, rfl⟩ | ⟨e, ⟨he, _⟩, rfl⟩)
    · exact Or.inl ⟨e, he, rfl⟩
    · exact Or.inr ⟨e, he, rfl⟩
  · rintro (⟨e, he, rfl⟩ | ⟨e, he, rfl⟩)
    · exact Or.inl ⟨e, he, rfl⟩
    · by_cases h1 : e.1 ∈ agg1.map Prod.fst
      · simp only [List.mem_map] at h1
        obtain ⟨e', he', hk⟩ := h1
        exact Or.inl ⟨e', he', hk⟩
      · right
        refine ⟨e, ⟨he, ?_⟩, rfl⟩
        simpa [aggKeys] using h1

theorem outerJoin_right_zero {κ : Type} [DecidableEq κ] (agg1 agg2 : List (κ × ℚ × ℚ))
    (c : CompRow κ) (hc : c ∈ outerJoin agg1 agg2) (hk : c.key ∉ aggKeys agg2) :
    c.vol2 = 0 ∧ c.val2 = 0 := by
  simp only [outerJoin, List.mem_append, List.mem_map, List.mem_filter] at hc
  rcases hc with ⟨e, he, rfl⟩ | ⟨e, ⟨he, _⟩, rfl⟩
  · have hnone : lookupAgg agg2 e.1 = none :=
      (lookupAgg_eq_none_iff agg2 e.1).mpr (by simpa [joinLeftRow_key] using hk)
    simp [joinLeftRow, hnone]
  · exact absurd (by simpa [aggKeys] using List.mem_map_of_mem Prod.fst he) hk

theorem outerJoin_left_zero {κ : Type} [DecidableEq κ] (agg1 agg2 : List (κ × ℚ × ℚ))
    (c : CompRow κ) (hc : c ∈ outerJoin agg1 agg2) (hk : c.key ∉ aggKeys agg1) :
    c.vol1 = 0 ∧ c.val1 = 0 := by
  simp only [outerJoin, List.mem_append, List.mem_map, List.mem_filter] at hc
  rcases hc with ⟨e, he, rfl⟩ | ⟨e, ⟨he, _⟩, rfl⟩
  · exact absurd (by simp only [joinLeftRow_key, aggKeys, List.mem_map]
                     exact ⟨e, he, rfl⟩) hk
  · exact ⟨rfl, rfl⟩

theorem splitWSAux_no_empty :
    ∀ (l : List Char) (cur : List Char) (acc : List String),
      "" ∉ acc → "" ∉ splitWSAux cur acc l := by
  intro l
  induction l with
  | nil =>
    intro cur acc hacc
    by_cases hcur : cur = []
    · simpa [splitWSAux, hcur] using hacc
    · simp only [splitWSAux, if_neg hcur, List.mem_cons]
      rintro (h | h)
      · exact hcur (by simpa [String.ext_iff] using h.symm)
      · exact hacc h
  | cons c cs ih =>
    intro cur acc hacc
    by_cases hws : c.isWhitespace
    · simp only [splitWSAux, if_pos hws]
      apply ih
      by_cases hcur : cur = []
      · simpa [hcur] using hacc
      · simp only [if_neg hcur, List.mem_cons]
        rintro (h | h)
        · exact hcur (by simpa [String.ext_iff] using h.symm)
        · exact hacc h
    · simp only [splitWSAux, if_neg hws]
      exact ih (c :: cur) acc hacc

theorem pySplit_no_empty (s : String) : "" ∉ pySplit s := by
  intro h
  exact splitWSAux_no_empty s.data [] [] (by simp) (by simpa [pySplit] using h)

/-! ## Claims -/

/-- C10: `load_data` is not total on empty sheets: it fails (models the
`IndexError` from `df.iloc[-1, 0]`) on a sheet with zero rows, and
succeeds on every non-empty sheet — its precondition is a non-empty sheet. -/
theorem C10_theorem :
    load_data [] = none ∧
    ∀ rows : List RawRow, rows ≠ [] → (load_data rows).isSome = true := by
  refine ⟨rfl, ?_⟩
  intro rows hr
  have hs : rows.getLast?.isSome := List.getLast?_isSome.mpr hr
  cases h : rows.getLast? with
  | none => simp [h] at hs
  | some r => simp [load_data, h]

/-- C10 witness: a concrete one-row sheet loads successfully. -/
theorem C10_witness :
    (load_data [{ first := "x", REGION := none, BANK := none, STATE := none,
                  VOLUME := 1, VALUE := 2 }]).isSome = true :=
  C10_theorem.2 _ (List.cons_ne_nil _ _)

/-- C6 counterexample: the code's TOTAL check is case-sensitive.  A last
row whose first column is "Total" — which, trimmed, case-insensitively
equals "TOTAL" — is NOT dropped, contradicting the claim. -/
theorem C6_counterexample :
    load_data [{ first := "Total", REGION := none, BANK := none, STATE := none,
                 VOLUME := 1, VALUE := 2 }]
      = some [{ first := "Total", REGION := none, BANK := none, STATE := none,
                VOLUME := 1, VALUE := 2 }] ∧
    pyUpper (pyStrip "Total") = "TOTAL" := by
  constructor
  · simp only [load_data, List.getLast?]
    rw [if_neg (by decide)]
  · decide

/-- C6 (amended): `load_data` returns the sheet's rows with the last row
removed if and only if that row's first column, trimmed of surrounding
whitespace, equals the literal string "TOTAL" exactly (case-sensitively);
no other rows are removed. -/
theorem C6_theorem (rows : List RawRow) (r : RawRow) (h : rows.getLast? = some r) :
    load_data rows = some (if pyStrip r.first = "TOTAL" then rows.dropLast else rows) := by
  simp [load_data, h]

/-- C6 witness: a trailing " TOTAL " row is dropped, a trailing data row
is kept. -/
theorem C6_witness :
    load_data [{ first := " TOTAL ", REGION := none, BANK := none, STATE := none,
                 VOLUME := 1, VALUE := 2 }] = some [] ∧
    load_data [{ first := "Lagos", REGION := none, BANK := none, STATE := none,
                 VOLUME := 1, VALUE := 2 }]
      = some [{ first := "Lagos", REGION := none, BANK := none, STATE := none,
                VOLUME := 1, VALUE := 2 }] := by
  constructor
  · rw [C6_theorem [{ first := " TOTAL ", REGION := none, BANK := none, STATE := none,
                      VOLUME := 1, VALUE := 2 }]
          { first := " TOTAL ", REGION := none, BANK := none, STATE := none,
            VOLUME := 1, VALUE := 2 } rfl, if_pos (by decide)]
    rfl
  · rw [C6_theorem [{ first := "Lagos", REGION := none, BANK := none, STATE := none,
                      VOLUME := 1, VALUE := 2 }]
          { first := "Lagos", REGION := none, BANK := none, STATE := none,
            VOLUME := 1, VALUE := 2 } rfl, if_neg (by decide)]

/-- C7 counterexample: label resolution is not total.  For the identifier
" " (whitespace-only base filename) the code raises `IndexError` at
`base.split()[0]` — modelled by `none` — instead of returning the
fallback. -/
theorem C7_counterexample :
    get_week_label (some " ") "PREVIOUS_WEEK" = none ∧
    get_week_label (some " ") "PREVIOUS_WEEK" ≠ some "PREVIOUS_WEEK" := by
  constructor <;> decide

/-- C7 (amended): label resolution is deterministic but partial: with no
identifier it returns the fallback; when the base filename has a first
whitespace-delimited token it returns that token uppercased (such a token
is never empty, so the code's empty-token fallback branch is dead); and
when the base filename has no token at all it fails (`IndexError`)
instead of returning the fallback.  Identifier "WEEK_4 export.xlsx"
resolves to "WEEK_4". -/
theorem C7_theorem :
    (∀ fb : String, get_week_label none fb = some fb) ∧
    (∀ (name fb t : String) (rest : List String),
      pySplit (basename name) = t :: rest →
        get_week_label (some name) fb = some (pyUpper t)) ∧
    (∀ name fb : String,
      pySplit (basename name) = [] → get_week_label (some name) fb = none) ∧
    get_week_label (some "WEEK_4 export.xlsx") "PREVIOUS_WEEK" = some "WEEK_4" := by
  refine ⟨fun fb => rfl, ?_, ?_, by decide⟩
  · intro name fb t rest h
    have ht : t ≠ "" := by
      intro he
      exact pySplit_no_empty (basename name) (by rw [h, he]; exact List.mem_cons_self _ _)
    simp [get_week_label, h, ht]
  · intro name fb h
    simp [get_week_label, h]

/-- C7 witness: the three cases at concrete inputs. -/
theorem C7_witness :
    get_week_label none "PREVIOUS_WEEK" = some "PREVIOUS_WEEK" ∧
    get_week_label (some "WEEK_4 export.xlsx") "X" = some (pyUpper "WEEK_4") ∧
    get_week_label (some "  ") "X" = none := by
  refine ⟨C7_theorem.1 "PREVIOUS_WEEK", ?_, ?_⟩
  · exact C7_theorem.2.1 "WEEK_4 export.xlsx" "X" "WEEK_4" ["export.xlsx"] (by decide)
  · exact C7_theorem.2.2.1 "  " "X" (by decide)

/-- C3: in every comparison row at every level — region+bank (at the
point where the DIFF columns are computed, app.py:128-129), region,
state, and the weekly-totals level — `VOLUME_DIFF` equals the
current-period (label2) volume minus the previous-period (label1)
volume, and `VALUE_DIFF` analogously; always label2 minus label1. -/
theorem C3_theorem :
    (∀ df1 df2 : List RawRow, ∀ r ∈ region_bank_merged df1 df2,
        r.volDiff = r.vol2 - r.vol1 ∧ r.valDiff = r.val2 - r.val1) ∧
    (∀ df1 df2 : List RawRow, ∀ r ∈ region_comparison df1 df2,
        r.volDiff = r.vol2 - r.vol1 ∧ r.valDiff = r.val2 - r.val1) ∧
    (∀ df1 df2 : List RawRow, ∀ r ∈ state_rows df1 df2,
        r.volDiff = r.vol2 - r.vol1 ∧ r.valDiff = r.val2 - r.val1) ∧
    (∀ df1 df2 : List RawRow,
        (compare_totals_sheet df1 df2).volDiff
          = (compare_totals_sheet df1 df2).vol2 - (compare_totals_sheet df1 df2).vol1 ∧
        (compare_totals_sheet df1 df2).valDiff
          = (compare_totals_sheet df1 df2).val2 - (compare_totals_sheet df1 df2).val1) := by
  refine ⟨?_, ?_, ?_, fun df1 df2 => ⟨rfl, rfl⟩⟩
  · intro df1 df2 r hr
    simp only [region_bank_merged, List.mem_map] at hr
    obtain ⟨c, -, rfl⟩ := hr
    exact ⟨rfl, rfl⟩
  · intro df1 df2 r hr
    simp only [region_comparison, List.mem_map] at hr
    obtain ⟨c, -, rfl⟩ := hr
    exact ⟨rfl, rfl⟩
  · intro df1 df2 r hr
    simp only [state_rows, List.mem_map] at hr
    obtain ⟨c, -, rfl⟩ := hr
    exact ⟨rfl, rfl⟩

/-- C3 witness: the region-level row joining volume 3 against volume 5
satisfies the diff convention. -/
theorem C3_witness :
    (vecRow ⟨"A", 3, 4, 5, 6⟩).volDiff
      = (vecRow ⟨"A", 3, 4, 5, 6⟩).vol2 - (vecRow ⟨"A", 3, 4, 5, 6⟩).vol1 ∧
    (vecRow ⟨"A", 3, 4, 5, 6⟩).valDiff
      = (vecRow ⟨"A", 3, 4, 5, 6⟩).val2 - (vecRow ⟨"A", 3, 4, 5, 6⟩).val1 := by
  have hmem : vecRow ⟨"A", 3, 4, 5, 6⟩ ∈
      region_comparison
        [{ first := "x", REGION := some "A", BANK := none, STATE := none,
           VOLUME := 3, VALUE := 4 }]
        [{ first := "y", REGION := some "A", BANK := none, STATE := none,
           VOLUME := 5, VALUE := 6 }] := by
    have hj : region_comparison
        [{ first := "x", REGION := some "A", BANK := none, STATE := none,
           VOLUME := 3, VALUE := 4 }]
        [{ first := "y", REGION := some "A", BANK := none, STATE := none,
           VOLUME := 5, VALUE := 6 }] = [vecRow ⟨"A", 3, 4, 5, 6⟩] := by
      norm_num [region_comparison, groupbySum, addRow, outerJoin, joinLeftRow,
        lookupAgg, aggKeys, regionKey]
    rw [hj]
    exact List.mem_singleton.mpr rfl
  exact C3_theorem.2.1 _ _ _ hmem

/-- C2: in every appended TOTAL row — the region diff table, the region
volume and value tables, and the state comparison — each additive column
equals the column-wise sum of that column over all non-total rows, and
each percentage column equals the raw (pandas, NaN-skipping) sum of the
per-row percentage values, not a percentage recomputed from summed
diffs and bases. -/
theorem C2_theorem (df1 df2 : List RawRow) :
    (diff_table df1 df2).getLast? = some
      { key := "TOTAL",
        volDiff := (((diff_table df1 df2).dropLast).map DRow.volDiff).sum,
        volPct := PVal.num (psum (((diff_table df1 df2).dropLast).map DRow.volPct)),
        valDiff := (((diff_table df1 df2).dropLast).map DRow.valDiff).sum,
        valPct := PVal.num (psum (((diff_table df1 df2).dropLast).map DRow.valPct)) } ∧
    (volume_table df1 df2).getLast? = some
      ("TOTAL", (((volume_table df1 df2).dropLast).map fun e => e.2.1).sum,
        (((volume_table df1 df2).dropLast).map fun e => e.2.2).sum) ∧
    (value_table df1 df2).getLast? = some
      ("TOTAL", (((value_table df1 df2).dropLast).map fun e => e.2.1).sum,
        (((value_table df1 df2).dropLast).map fun e => e.2.2).sum) ∧
    (state_comparison df1 df2).getLast? = some
      { key := "TOTAL",
        volDiff := (((state_comparison df1 df2).dropLast).map DRow.volDiff).sum,
        volPct := PVal.num (psum (((state_comparison df1 df2).dropLast).map DRow.volPct)),
        valDiff := (((state_comparison df1 df2).dropLast).map DRow.valDiff).sum,
        valPct := PVal.num (psum (((state_comparison df1 df2).dropLast).map DRow.valPct)) } := by
  refine ⟨?_, ?_, ?_, ?_⟩ <;>
    simp [diff_table, volume_table, value_table, state_comparison,
      List.getLast?_concat, List.dropLast_concat]

/-- C4: for any two periods' aggregate sets, the keys of the joined
comparison table are exactly the union of the keys present in either
aggregate, and a key present in only one period is retained with 0
substituted for the other period's VOLUME and VALUE measures — never
dropped. -/
theorem C4_theorem {κ : Type} [DecidableEq κ] (agg1 agg2 : List (κ × ℚ × ℚ)) :
    (∀ k, k ∈ (outerJoin agg1 agg2).map CompRow.key
        ↔ k ∈ aggKeys agg1 ∨ k ∈ aggKeys agg2) ∧
    ∀ c ∈ outerJoin agg1 agg2,
      (c.key ∉ aggKeys agg2 → c.vol2 = 0 ∧ c.val2 = 0) ∧
      (c.key ∉ aggKeys agg1 → c.vol1 = 0 ∧ c.val1 = 0) := by
  refine ⟨mem_key_outerJoin agg1 agg2, fun c hc => ?_⟩
  exact ⟨fun hk => outerJoin_right_zero agg1 agg2 c hc hk,
         fun hk => outerJoin_left_zero agg1 agg2 c hc hk⟩

/-- C4 witness: region-level aggregates with keys "A" (week 1 only) and
"B" (week 2 only): both keys survive the join, and the week-1 measures of
the "B" row are zero-filled. -/
theorem C4_witness :
    ("A" ∈ (outerJoin
        (groupbySum regionKey
          [{ first := "x", REGION := some "A", BANK := none, STATE := none,
             VOLUME := 3, VALUE := 4 }])
        (groupbySum regionKey
          [{ first := "y", REGION := some "B", BANK := none, STATE := none,
             VOLUME := 5, VALUE := 6 }])).map CompRow.key) ∧
    ((⟨"B", 0, 0, 5, 6⟩ : CompRow String).vol1 = 0 ∧
     (⟨"B", 0, 0, 5, 6⟩ : CompRow String).val1 = 0) := by
  have hj : outerJoin
      (groupbySum regionKey
        [{ first := "x", REGION := some "A", BANK := none, STATE := none,
           VOLUME := 3, VALUE := 4 }])
      (groupbySum regionKey
        [{ first := "y", REGION := some "B", BANK := none, STATE := none,
           VOLUME := 5, VALUE := 6 }])
      = [⟨"A", 3, 4, 0, 0⟩, ⟨"B", 0, 0, 5, 6⟩] := by
    norm_num +decide [outerJoin, joinLeftRow, lookupAgg, aggKeys, groupbySum, addRow, regionKey]
  have hkeys : aggKeys (groupbySum regionKey
      [{ first := "x", REGION := some "A", BANK := none, STATE := none,
         VOLUME := 3, VALUE := 4 }]) = ["A"] := by
    norm_num +decide [aggKeys, groupbySum, addRow, regionKey]
  constructor
  · refine ((C4_theorem _ _).1 "A").mpr (Or.inl ?_)
    rw [hkeys]
    exact List.mem_singleton.mpr rfl
  · refine ((C4_theorem
        (groupbySum regionKey
          [{ first := "x", REGION := some "A", BANK := none, STATE := none,
             VOLUME := 3, VALUE := 4 }])
        (groupbySum regionKey
          [{ first := "y", REGION := some "B", BANK := none, STATE := none,
             VOLUME := 5, VALUE := 6 }])).2 ⟨"B", 0, 0, 5, 6⟩ ?_).2 ?_
    · rw [hj]
      simp
    · rw [hkeys]
      simp

/-- C5 counterexample: at the region+bank level, `groupby` drops rows
whose REGION (or BANK) is null, so grouping does NOT conserve totals for
every non-empty source table: a single row with null REGION and VOLUME 5
aggregates to an empty table with total volume 0. -/
theorem C5_counterexample :
    ((rbAgg [{ first := "x", REGION := none, BANK := some "B", STATE := none,
               VOLUME := 5, VALUE := 7 }]).map fun e => e.2.1).sum = 0 ∧
    (([{ first := "x", REGION := none, BANK := some "B", STATE := none,
         VOLUME := 5, VALUE := 7 }] : List RawRow).map RawRow.VOLUME).sum = 5 ∧
    (0 : ℚ) ≠ 5 := by
  refine ⟨?_, by norm_num, by norm_num⟩
  norm_num [rbAgg, rbValid, groupbySum]

/-- C5 (amended): grouping and summing conserves the VOLUME and VALUE
totals at the region and state levels (where null keys were replaced by
"UNKNOWN" before grouping) for every source table, and at the
region+bank level for every source table none of whose rows has a null
REGION or BANK; rows with a null grouping key are silently dropped by
the region+bank grouping. -/
theorem C5_theorem :
    (∀ df : List RawRow,
      ((groupbySum regionKey df).map fun e => e.2.1).sum = (df.map RawRow.VOLUME).sum ∧
      ((groupbySum regionKey df).map fun e => e.2.2).sum = (df.map RawRow.VALUE).sum) ∧
    (∀ df : List RawRow,
      ((groupbySum stateKey df).map fun e => e.2.1).sum = (df.map RawRow.VOLUME).sum ∧
      ((groupbySum stateKey df).map fun e => e.2.2).sum = (df.map RawRow.VALUE).sum) ∧
    (∀ df : List RawRow, (∀ r ∈ df, rbValid r = true) →
      ((rbAgg df).map fun e => e.2.1).sum = (df.map RawRow.VOLUME).sum ∧
      ((rbAgg df).map fun e => e.2.2).sum = (df.map RawRow.VALUE).sum) := by
  refine ⟨fun df => ⟨groupbySum_sumVol _ df, groupbySum_sumVal _ df⟩,
          fun df => ⟨groupbySum_sumVol _ df, groupbySum_sumVal _ df⟩,
          fun df h => ?_⟩
  rw [rbAgg, List.filter_eq_self.mpr h]
  exact ⟨groupbySum_sumVol _ df, groupbySum_sumVal _ df⟩

/-- C5 witness: conservation at the region+bank level on a concrete
two-row table with non-null keys. -/
theorem C5_witness :
    ((rbAgg [{ first := "x", REGION := some "A", BANK := some "B", STATE := none,
               VOLUME := 5, VALUE := 7 },
             { first := "y", REGION := some "A", BANK := some "B", STATE := none,
               VOLUME := 8, VALUE := 2 }]).map fun e => e.2.1).sum
      = (([{ first := "x", REGION := some "A", BANK := some "B", STATE := none,
             VOLUME := 5, VALUE := 7 },
           { first := "y", REGION := some "A", BANK := some "B", STATE := none,
             VOLUME := 8, VALUE := 2 }] : List RawRow).map RawRow.VOLUME).sum :=
  (C5_theorem.2.2 _ (by decide)).1

/-- C1 counterexample: at the vectorized region level, a key whose
prior-period volume is 0 and whose diff is also 0 (volume 0 in both
periods) gets percentage NaN, not 0: `0.0 / 0.0` is NaN and
`.replace([inf, -inf], 0)` does not touch NaN. -/
theorem C1_counterexample :
    (region_comparison
        [{ first := "x", REGION := some "A", BANK := none, STATE := none,
           VOLUME := 0, VALUE := 0 }]
        [{ first := "y", REGION := some "A", BANK := none, STATE := none,
           VOLUME := 0, VALUE := 0 }]).map VRow.vol1 = [0] ∧
    (region_comparison
        [{ first := "x", REGION := some "A", BANK := none, STATE := none,
           VOLUME := 0, VALUE := 0 }]
        [{ first := "y", REGION := some "A", BANK := none, STATE := none,
           VOLUME := 0, VALUE := 0 }]).map VRow.volPct = [PVal.nan] ∧
    PVal.nan ≠ PVal.num 0 := by
  have hj : region_comparison
      [{ first := "x", REGION := some "A", BANK := none, STATE := none,
         VOLUME := 0, VALUE := 0 }]
      [{ first := "y", REGION := some "A", BANK := none, STATE := none,
         VOLUME := 0, VALUE := 0 }] = [vecRow ⟨"A", 0, 0, 0, 0⟩] := by
    norm_num +decide [region_comparison, groupbySum, addRow, outerJoin, joinLeftRow,
      lookupAgg, aggKeys, regionKey]
  rw [hj]
  refine ⟨rfl, ?_, by decide⟩
  simp [vecRow, pctVec, pdiv, pmul100, replaceInf]

/-- C1 (amended): the zero-denominator rule holds as stated at the
per-row levels (region+bank and weekly totals): a zero prior-period base
yields percentage exactly 0.  At the vectorized levels (region, state) a
zero base yields 0 whenever the diff is nonzero (the ±infinity produced
by the division is replaced by 0), but yields NaN when the diff is also
zero, since `replace([inf, -inf], 0)` leaves the NaN from 0/0 in place. -/
theorem C1_theorem :
    (∀ df1 df2 : List RawRow, ∀ r ∈ region_bank_merged df1 df2,
      (r.vol1 = 0 → r.volPct = 0) ∧ (r.val1 = 0 → r.valPct = 0)) ∧
    (∀ df1 df2 : List RawRow,
      ((compare_totals_sheet df1 df2).vol1 = 0 → (compare_totals_sheet df1 df2).volPct = 0) ∧
      ((compare_totals_sheet df1 df2).val1 = 0 → (compare_totals_sheet df1 df2).valPct = 0)) ∧
    (∀ df1 df2 : List RawRow, ∀ r ∈ region_comparison df1 df2,
      (r.vol1 = 0 → (r.volDiff ≠ 0 → r.volPct = PVal.num 0) ∧
                    (r.volDiff = 0 → r.volPct = PVal.nan)) ∧
      (r.val1 = 0 → (r.valDiff ≠ 0 → r.valPct = PVal.num 0) ∧
                    (r.valDiff = 0 → r.valPct = PVal.nan))) ∧
    (∀ df1 df2 : List RawRow, ∀ r ∈ state_rows df1 df2,
      (r.vol1 = 0 → (r.volDiff ≠ 0 → r.volPct = PVal.num 0) ∧
                    (r.volDiff = 0 → r.volPct = PVal.nan)) ∧
      (r.val1 = 0 → (r.valDiff ≠ 0 → r.valPct = PVal.num 0) ∧
                    (r.valDiff = 0 → r.valPct = PVal.nan))) := by
  refine ⟨?_, ?_, ?_, ?_⟩
  · intro df1 df2 r hr
    simp only [region_bank_merged, List.mem_map] at hr
    obtain ⟨c, -, rfl⟩ := hr
    constructor
    · intro h0
      simp only [rbMergedRow] at h0 ⊢
      simp [h0]
    · intro h0
      simp only [rbMergedRow] at h0 ⊢
      simp [h0]
  · intro df1 df2
    constructor
    · intro h0
      simp only [compare_totals_sheet] at h0 ⊢
      simp [h0]
    · intro h0
      simp only [compare_totals_sheet] at h0 ⊢
      simp [h0]
  · intro df1 df2 r hr
    simp only [region_comparison, List.mem_map] at hr
    obtain ⟨c, -, rfl⟩ := hr
    constructor
    · intro h0
      simp only [vecRow] at h0 ⊢
      rw [h0]
      exact ⟨fun hd => pctVec_zero_of_ne _ hd, fun hd => by rw [hd]; exact pctVec_zero_zero⟩
    · intro h0
      simp only [vecRow] at h0 ⊢
      rw [h0]
      exact ⟨fun hd => pctVec_zero_of_ne _ hd, fun hd => by rw [hd]; exact pctVec_zero_zero⟩
  · intro df1 df2 r hr
    simp only [state_rows, List.mem_map] at hr
    obtain ⟨c, -, rfl⟩ := hr
    constructor
    · intro h0
      simp only [vecRow] at h0 ⊢
      rw [h0]
      exact ⟨fun hd => pctVec_zero_of_ne _ hd, fun hd => by rw [hd]; exact pctVec_zero_zero⟩
    · intro h0
      simp only [vecRow] at h0 ⊢
      rw [h0]
      exact ⟨fun hd => pctVec_zero_of_ne _ hd, fun hd => by rw [hd]; exact pctVec_zero_zero⟩

/-- C1 witness: a region+bank row with zero prior volume gets percentage
0, and a vectorized region row with zero prior volume and nonzero diff
gets percentage 0. -/
theorem C1_witness :
    (rbMergedRow ⟨("A", "B"), 0, 0, 3, 4⟩).volPct = 0 ∧
    (vecRow ⟨"A", 0, 0, 3, 4⟩).volPct = PVal.num 0 := by
  constructor
  · have hm : rbMergedRow ⟨("A", "B"), 0, 0, 3, 4⟩ ∈
        region_bank_merged
          [{ first := "x", REGION := some "A", BANK := some "B", STATE := none,
             VOLUME := 0, VALUE := 0 }]
          [{ first := "y", REGION := some "A", BANK := some "B", STATE := none,
             VOLUME := 3, VALUE := 4 }] := by
      have hj : region_bank_merged
          [{ first := "x", REGION := some "A", BANK := some "B", STATE := none,
             VOLUME := 0, VALUE := 0 }]
          [{ first := "y", REGION := some "A", BANK := some "B", STATE := none,
             VOLUME := 3, VALUE := 4 }] = [rbMergedRow ⟨("A", "B"), 0, 0, 3, 4⟩] := by
        norm_num +decide [region_bank_merged, rbAgg, rbValid, rbKey, groupbySum, addRow,
          outerJoin, joinLeftRow, lookupAgg, aggKeys]
      rw [hj]
      exact List.mem_singleton.mpr rfl
    exact (C1_theorem.1 _ _ _ hm).1 rfl
  · have hm : vecRow ⟨"A", 0, 0, 3, 4⟩ ∈
        region_comparison
          [{ first := "x", REGION := some "A", BANK := none, STATE := none,
             VOLUME := 0, VALUE := 0 }]
          [{ first := "y", REGION := some "A", BANK := none, STATE := none,
             VOLUME := 3, VALUE := 4 }] := by
      have hj : region_comparison
          [{ first := "x", REGION := some "A", BANK := none, STATE := none,
             VOLUME := 0, VALUE := 0 }]
          [{ first := "y", REGION := some "A", BANK := none, STATE := none,
             VOLUME := 3, VALUE := 4 }] = [vecRow ⟨"A", 0, 0, 3, 4⟩] := by
        norm_num +decide [region_comparison, groupbySum, addRow, outerJoin, joinLeftRow,
          lookupAgg, aggKeys, regionKey]
      rw [hj]
      exact List.mem_singleton.mpr rfl
    exact ((C1_theorem.2.2.1 _ _ _ hm).1 rfl).1 (by norm_num [vecRow])

/-- C9 counterexample: the vectorized region level does NOT round the
stored percentage to two decimals: joining volume 3 against volume 4
stores exactly 100/3 (= 33.333...), while round-to-2-decimals would give
33.33; the two differ. -/
theorem C9_counterexample :
    (region_comparison
        [{ first := "x", REGION := some "A", BANK := none, STATE := none,
           VOLUME := 3, VALUE := 3 }]
        [{ first := "y", REGION := some "A", BANK := none, STATE := none,
           VOLUME := 4, VALUE := 4 }]).map VRow.volPct = [PVal.num (100/3)] ∧
    round2 ((1 : ℚ) / 3 * 100) = 3333/100 ∧
    (100 : ℚ)/3 ≠ 3333/100 := by
  have hj : region_comparison
      [{ first := "x", REGION := some "A", BANK := none, STATE := none,
         VOLUME := 3, VALUE := 3 }]
      [{ first := "y", REGION := some "A", BANK := none, STATE := none,
         VOLUME := 4, VALUE := 4 }] = [vecRow ⟨"A", 3, 3, 4, 4⟩] := by
    norm_num +decide [region_comparison, groupbySum, addRow, outerJoin, joinLeftRow,
      lookupAgg, aggKeys, regionKey]
  refine ⟨?_, by norm_num [round2, roundHE], by norm_num⟩
  rw [hj]
  have : pctVec ((4 : ℚ) - 3) 3 = PVal.num (100/3) := by
    rw [pctVec_of_base_ne _ _ (by norm_num)]
    norm_num
  simp [vecRow, this]

/-- C9 (amended): for rows with a nonzero prior-period base, the per-row
levels (region+bank merged table, weekly totals) store
`round(DIFF / base * 100, 2)`, rounded to two decimals; the vectorized
levels (region, state) store the exact unrounded quotient
`DIFF / base * 100` (two-decimal rendering there is display formatting
only). -/
theorem C9_theorem :
    (∀ df1 df2 : List RawRow, ∀ r ∈ region_bank_merged df1 df2,
      (r.vol1 ≠ 0 → r.volPct = round2 (r.volDiff / r.vol1 * 100)) ∧
      (r.val1 ≠ 0 → r.valPct = round2 (r.valDiff / r.val1 * 100))) ∧
    (∀ df1 df2 : List RawRow,
      ((compare_totals_sheet df1 df2).vol1 ≠ 0 →
        (compare_totals_sheet df1 df2).volPct
          = round2 (((compare_totals_sheet df1 df2).volDiff : ℚ)
              / ((compare_totals_sheet df1 df2).vol1 : ℚ) * 100)) ∧
      ((compare_totals_sheet df1 df2).val1 ≠ 0 →
        (compare_totals_sheet df1 df2).valPct
          = round2 (((compare_totals_sheet df1 df2).valDiff : ℚ)
              / ((compare_totals_sheet df1 df2).val1 : ℚ) * 100))) ∧
    (∀ df1 df2 : List RawRow, ∀ r ∈ region_comparison df1 df2,
      (r.vol1 ≠ 0 → r.volPct = PVal.num (r.volDiff / r.vol1 * 100)) ∧
      (r.val1 ≠ 0 → r.valPct = PVal.num (r.valDiff / r.val1 * 100))) ∧
    (∀ df1 df2 : List RawRow, ∀ r ∈ state_rows df1 df2,
      (r.vol1 ≠ 0 → r.volPct = PVal.num (r.volDiff / r.vol1 * 100)) ∧
      (r.val1 ≠ 0 → r.valPct = PVal.num (r.valDiff / r.val1 * 100))) := by
  refine ⟨?_, ?_, ?_, ?_⟩
  · intro df1 df2 r hr
    simp only [region_bank_merged, List.mem_map] at hr
    obtain ⟨c, -, rfl⟩ := hr
    refine ⟨fun h0 => ?_, fun h0 => ?_⟩ <;>
    · simp only [rbMergedRow] at h0 ⊢
      simp [h0]
  · intro df1 df2
    constructor
    · intro h0
      simp only [compare_totals_sheet] at h0 ⊢
      rw [if_pos h0]
    · intro h0
      simp only [compare_totals_sheet] at h0 ⊢
      rw [if_pos h0]
  · intro df1 df2 r hr
    simp only [region_comparison, List.mem_map] at hr
    obtain ⟨c, -, rfl⟩ := hr
    exact ⟨fun h0 => by simp only [vecRow] at h0 ⊢; exact pctVec_of_base_ne _ _ h0,
           fun h0 => by simp only [vecRow] at h0 ⊢; exact pctVec_of_base_ne _ _ h0⟩
  · intro df1 df2 r hr
    simp only [state_rows, List.mem_map] at hr
    obtain ⟨c, -, rfl⟩ := hr
    exact ⟨fun h0 => by simp only [vecRow] at h0 ⊢; exact pctVec_of_base_ne _ _ h0,
           fun h0 => by simp only [vecRow] at h0 ⊢; exact pctVec_of_base_ne _ _ h0⟩

/-- C9 witness: the per-row and vectorized formulas at a concrete joined
row with base 3 and diff 1. -/
theorem C9_witness :
    (rbMergedRow ⟨("A", "B"), 3, 3, 4, 4⟩).volPct
      = round2 ((rbMergedRow ⟨("A", "B"), 3, 3, 4, 4⟩).volDiff
          / (rbMergedRow ⟨("A", "B"), 3, 3, 4, 4⟩).vol1 * 100) ∧
    (vecRow ⟨"A", 3, 3, 4, 4⟩).volPct
      = PVal.num ((vecRow ⟨"A", 3, 3, 4, 4⟩).volDiff
          / (vecRow ⟨"A", 3, 3, 4, 4⟩).vol1 * 100) := by
  constructor
  · have hm : rbMergedRow ⟨("A", "B"), 3, 3, 4, 4⟩ ∈
        region_bank_merged
          [{ first := "x", REGION := some "A", BANK := some "B", STATE := none,
             VOLUME := 3, VALUE := 3 }]
          [{ first := "y", REGION := some "A", BANK := some "B", STATE := none,
             VOLUME := 4, VALUE := 4 }] := by
      have hj : region_bank_merged
          [{ first := "x", REGION := some "A", BANK := some "B", STATE := none,
             VOLUME := 3, VALUE := 3 }]
          [{ first := "y", REGION := some "A", BANK := some "B", STATE := none,
             VOLUME := 4, VALUE := 4 }] = [rbMergedRow ⟨("A", "B"), 3, 3, 4, 4⟩] := by
        norm_num +decide [region_bank_merged, rbAgg, rbValid, rbKey, groupbySum, addRow,
          outerJoin, joinLeftRow, lookupAgg, aggKeys]
      rw [hj]
      exact List.mem_singleton.mpr rfl
    exact (C9_theorem.1 _ _ _ hm).1 (by norm_num [rbMergedRow])
  · have hm : vecRow ⟨"A", 3, 3, 4, 4⟩ ∈
        region_comparison
          [{ first := "x", REGION := some "A", BANK := none, STATE := none,
             VOLUME := 3, VALUE := 3 }]
          [{ first := "y", REGION := some "A", BANK := none, STATE := none,
             VOLUME := 4, VALUE := 4 }] := by
      have hj : region_comparison
          [{ first := "x", REGION := some "A", BANK := none, STATE := none,
             VOLUME := 3, VALUE := 3 }]
          [{ first := "y", REGION := some "A", BANK := none, STATE := none,
             VOLUME := 4, VALUE := 4 }] = [vecRow ⟨"A", 3, 3, 4, 4⟩] := by
        norm_num +decide [region_comparison, groupbySum, addRow, outerJoin, joinLeftRow,
          lookupAgg, aggKeys, regionKey]
      rw [hj]
      exact List.mem_singleton.mpr rfl
    exact (C9_theorem.2.2.1 _ _ _ hm).1 (by norm_num [vecRow])

/-- C8 counterexample: the region level performs the outer join and zero
fill but does NOT round/cast the joined measure columns to integers: a
source VALUE of 1/2 survives as the non-integral stored value 1/2 (the
region+bank cast `roundHE` would send it to 0). -/
theorem C8_counterexample :
    (region_comparison
        [{ first := "x", REGION := some "A", BANK := none, STATE := none,
           VOLUME := 1, VALUE := 1/2 }]
        [{ first := "y", REGION := some "A", BANK := none, STATE := none,
           VOLUME := 1, VALUE := 1/2 }]).map VRow.val1 = [(1 : ℚ)/2] ∧
    ((1 : ℚ)/2) ≠ ((roundHE ((1 : ℚ)/2) : ℤ) : ℚ) := by
  have hj : region_comparison
      [{ first := "x", REGION := some "A", BANK := none, STATE := none,
         VOLUME := 1, VALUE := 1/2 }]
      [{ first := "y", REGION := some "A", BANK := none, STATE := none,
         VOLUME := 1, VALUE := 1/2 }] = [vecRow ⟨"A", 1, 1/2, 1, 1/2⟩] := by
    norm_num +decide [region_comparison, groupbySum, addRow, outerJoin, joinLeftRow,
      lookupAgg, aggKeys, regionKey]
  refine ⟨by rw [hj]; rfl, ?_⟩
  rw [show roundHE ((1 : ℚ)/2) = 0 by norm_num [roundHE]]
  norm_num

/-- C8 (amended): only the region+bank level casts the joined measure
and diff columns to integers after the join-fill: every row of
`region_bank_comparison` has integral (denominator-1) values in all six
measure/diff columns, each equal to the half-even rounding of the
corresponding merged value; the region and state levels keep the raw
(possibly fractional) float sums. -/
theorem C8_theorem (df1 df2 : List RawRow) (r : RBRow)
    (h : r ∈ region_bank_comparison df1 df2) :
    r.vol1.den = 1 ∧ r.vol2.den = 1 ∧ r.volDiff.den = 1 ∧
    r.val1.den = 1 ∧ r.val2.den = 1 ∧ r.valDiff.den = 1 := by
  simp only [region_bank_comparison, List.mem_map] at h
  obtain ⟨m, -, rfl⟩ := h
  simp [castCols, Rat.den_intCast]

/-- C8 witness: the cast columns of a concrete region+bank row are
integral. -/
theorem C8_witness :
    (castCols (rbMergedRow ⟨("A", "B"), 3, 3, 4, 4⟩)).vol1.den = 1 ∧
    (castCols (rbMergedRow ⟨("A", "B"), 3, 3, 4, 4⟩)).vol2.den = 1 ∧
    (castCols (rbMergedRow ⟨("A", "B"), 3, 3, 4, 4⟩)).volDiff.den = 1 ∧
    (castCols (rbMergedRow ⟨("A", "B"), 3, 3, 4, 4⟩)).val1.den = 1 ∧
    (castCols (rbMergedRow ⟨("A", "B"), 3, 3, 4, 4⟩)).val2.den = 1 ∧
    (castCols (rbMergedRow ⟨("A", "B"), 3, 3, 4, 4⟩)).valDiff.den = 1 := by
  have hm : castCols (rbMergedRow ⟨("A", "B"), 3, 3, 4, 4⟩) ∈
      region_bank_comparison
        [{ first := "x", REGION := some "A", BANK := some "B", STATE := none,
           VOLUME := 3, VALUE := 3 }]
        [{ first := "y", REGION := some "A", BANK := some "B", STATE := none,
           VOLUME := 4, VALUE := 4 }] := by
    have hj : region_bank_merged
        [{ first := "x", REGION := some "A", BANK := some "B", STATE := none,
           VOLUME := 3, VALUE := 3 }]
        [{ first := "y", REGION := some "A", BANK := some "B", STATE := none,
           VOLUME := 4, VALUE := 4 }] = [rbMergedRow ⟨("A", "B"), 3, 3, 4, 4⟩] := by
      norm_num +decide [region_bank_merged, rbAgg, rbValid, rbKey, groupbySum, addRow,
        outerJoin, joinLeftRow, lookupAgg, aggKeys]
    simp only [region_bank_comparison, hj, List.map_cons, List.map_nil]
    exact List.mem_singleton.mpr rfl
  exact C8_theorem _ _ _ hm
